import Mathlib

/-!
Verification development for the three-agent inventory management system
(`src/main.py`).  The inventory database (`InventoryDB`), its operations,
the status evaluator, the activity-log slicing, the JSON persistence layer
and the monitor tick of `InventoryManager` are shallowly embedded below,
translated from the Python source.  Python dicts preserve insertion order,
so the inventory is modelled as an association list with unique keys;
quantities are integers, prices are rationals, timestamps are opaque
strings supplied by the caller (the source reads `datetime.now()`).
-/

set_option linter.unusedVariables false

/-- Values of a product record, mirroring the dict stored at
`self.inventory[product_id]` in `main.py`. -/
structure Product where
  name : String
  quantity : Int
  price : Rat
  category : String
  last_updated : String
deriving Repr, DecidableEq

/-- One activity-log entry, mirroring the dicts appended to
`self.activity_log` in `main.py`. -/
structure Activity where
  timestamp : String
  agent : String
  action : String
  details : String
deriving Repr, DecidableEq

/-- JSON values, the format of the two persisted files
(`inventory.json` and `activity_log.json`).  Integers and general
numbers are kept apart, as the Python `json` module does. -/
inductive JValue where
  | str : String → JValue
  | int : Int → JValue
  | num : Rat → JValue
  | bool : Bool → JValue
  | null : JValue
  | arr : List JValue → JValue
  | obj : List (String × JValue) → JValue
deriving Repr

/-- The state of an `InventoryDB`: the in-memory inventory mapping and
activity log, together with the current content of the two persisted
files (written by `save_data`). -/
structure InvState where
  inventory : List (String × Product)
  activity_log : List Activity
  fileInventory : JValue
  fileLog : JValue
deriving Repr

/-- The record returned by `get_inventory_status`. -/
structure Status where
  total_products : Nat
  out_of_stock : Nat
  low_stock : Nat
  total_value : Rat
deriving Repr, DecidableEq

/-- First-match association-list lookup: `product_id in self.inventory`
and `self.inventory[product_id]`. -/
def alookup (l : List (String × Product)) (k : String) : Option Product :=
  match l with
  | [] => none
  | (k2, v) :: t => if k2 = k then some v else alookup t k

/-- In-place update of the value stored at a key, preserving insertion
order, as assignment to `self.inventory[product_id]` does in Python
(keys are unique, so updating the first occurrence is dict
assignment). -/
def aset (l : List (String × Product)) (k : String) (v : Product) :
    List (String × Product) :=
  match l with
  | [] => []
  | (k2, v2) :: t => if k2 = k then (k2, v) :: t else (k2, v2) :: aset t k v

/-- Removal of a key, as `del self.inventory[product_id]` does. -/
def aremove (l : List (String × Product)) (k : String) :
    List (String × Product) :=
  l.filter (fun kv => kv.1 != k)

/-- JSON encoding of one product record, the shape `json.dump` writes
for a value of `self.inventory`. -/
def encodeProduct (p : Product) : JValue :=
  JValue.obj [("name", JValue.str p.name),
              ("quantity", JValue.int p.quantity),
              ("price", JValue.num p.price),
              ("category", JValue.str p.category),
              ("last_updated", JValue.str p.last_updated)]

/-- Partial inverse of `encodeProduct`. -/
def decodeProduct (j : JValue) : Option Product :=
  match j with
  | JValue.obj [("name", JValue.str n), ("quantity", JValue.int q),
                ("price", JValue.num pr), ("category", JValue.str c),
                ("last_updated", JValue.str lu)] =>
      some (Product.mk n q pr c lu)
  | _ => none

/-- JSON encoding of the full inventory mapping (`inventory.json`). -/
def encodeInventory (inv : List (String × Product)) : JValue :=
  JValue.obj (inv.map (fun kv => (kv.1, encodeProduct kv.2)))

/-- Decoding of the entries of a JSON inventory object. -/
def decodeEntries (l : List (String × JValue)) :
    Option (List (String × Product)) :=
  match l with
  | [] => some []
  | (k, jv) :: t =>
      match decodeProduct jv, decodeEntries t with
      | some p, some r => some ((k, p) :: r)
      | _, _ => none

/-- Partial inverse of `encodeInventory`. -/
def decodeInventory (j : JValue) : Option (List (String × Product)) :=
  match j with
  | JValue.obj kvs => decodeEntries kvs
  | _ => none

/-- JSON encoding of one activity-log entry. -/
def encodeActivity (a : Activity) : JValue :=
  JValue.obj [("timestamp", JValue.str a.timestamp),
              ("agent", JValue.str a.agent),
              ("action", JValue.str a.action),
              ("details", JValue.str a.details)]

/-- Partial inverse of `encodeActivity`. -/
def decodeActivity (j : JValue) : Option Activity :=
  match j with
  | JValue.obj [("timestamp", JValue.str ts), ("agent", JValue.str ag),
                ("action", JValue.str ac), ("details", JValue.str de)] =>
      some (Activity.mk ts ag ac de)
  | _ => none

/-- Decoding of the elements of a JSON activity-log array. -/
def decodeLogEntries (l : List JValue) : Option (List Activity) :=
  match l with
  | [] => some []
  | jv :: t =>
      match decodeActivity jv, decodeLogEntries t with
      | some a, some r => some (a :: r)
      | _, _ => none

/-- JSON encoding of the activity log (`activity_log.json`). -/
def encodeLog (log : List Activity) : JValue :=
  JValue.arr (log.map encodeActivity)

/-- Partial inverse of `encodeLog`. -/
def decodeLog (j : JValue) : Option (List Activity) :=
  match j with
  | JValue.arr l => decodeLogEntries l
  | _ => none

/-- `InventoryDB.save_data`: rewrite both persisted files from the
in-memory state (whole-file rewrite on every mutation). -/
def save_data (s : InvState) : InvState :=
  { s with fileInventory := encodeInventory s.inventory,
           fileLog := encodeLog s.activity_log }

/-- `InventoryDB.add_product`: fail when the id is already present,
otherwise insert the record with the current timestamp, append a log
entry and persist.  Returns the Python boolean result with the updated
state. -/
def add_product (s : InvState) (product_id name : String) (quantity : Int)
    (price : Rat) (category : String) (now : String) : Bool × InvState :=
  if (alookup s.inventory product_id).isSome then
    (false, s)
  else
    let record : Product := Product.mk name quantity price category now
    let activity : Activity :=
      Activity.mk now "InventoryManager" "add_product"
        s!"Added {name} (ID: {product_id}), Qty: {quantity}, Price: {price}"
    (true, save_data { s with
        inventory := s.inventory ++ [(product_id, record)],
        activity_log := s.activity_log ++ [activity] })

/-- `InventoryDB.update_quantity`: fail when the id is absent, otherwise
add `change` to the quantity (unchecked, may drive it negative), stamp,
log and persist. -/
def update_quantity (s : InvState) (product_id : String) (change : Int)
    (now : String) : Bool × InvState :=
  match alookup s.inventory product_id with
  | none => (false, s)
  | some p =>
    let newQty : Int := p.quantity + change
    let p2 : Product := { p with quantity := newQty, last_updated := now }
    let pname := p.name
    let activity : Activity :=
      Activity.mk now "InventoryManager" "update_quantity"
        s!"Updated {pname} (ID: {product_id}) by {change}. New Qty: {newQty}"
    (true, save_data { s with
        inventory := aset s.inventory product_id p2,
        activity_log := s.activity_log ++ [activity] })

/-- `InventoryDB.sell_product`: fail when the id is absent or the stored
quantity is below `quantity_sold`, otherwise subtract, stamp, log and
persist. -/
def sell_product (s : InvState) (product_id : String) (quantity_sold : Int)
    (now : String) : Bool × InvState :=
  match alookup s.inventory product_id with
  | none => (false, s)
  | some p =>
    if p.quantity < quantity_sold then
      (false, s)
    else
      let newQty : Int := p.quantity - quantity_sold
      let p2 : Product := { p with quantity := newQty, last_updated := now }
      let pname := p.name
      let activity : Activity :=
        Activity.mk now "InventoryManager" "sell_product"
          s!"Sold {quantity_sold} of {pname} (ID: {product_id}). Remaining Qty: {newQty}"
      (true, save_data { s with
          inventory := aset s.inventory product_id p2,
          activity_log := s.activity_log ++ [activity] })

/-- `InventoryDB.delete_product`: fail when the id is absent, otherwise
remove the record, log the deletion with the removed name and persist. -/
def delete_product (s : InvState) (product_id : String) (now : String) :
    Bool × InvState :=
  match alookup s.inventory product_id with
  | none => (false, s)
  | some p =>
    let pname := p.name
    let activity : Activity :=
      Activity.mk now "InventoryManager" "delete_product"
        s!"Deleted {pname} (ID: {product_id})"
    (true, save_data { s with
        inventory := aremove s.inventory product_id,
        activity_log := s.activity_log ++ [activity] })

/-- `InventoryDB.get_inventory_status`: pure read of the aggregate
counts and the total stock value. -/
def get_inventory_status (s : InvState) : Status :=
  { total_products := s.inventory.length,
    out_of_stock :=
      s.inventory.countP (fun kv => decide (kv.2.quantity ≤ 0)),
    low_stock :=
      s.inventory.countP
        (fun kv => decide (0 < kv.2.quantity ∧ kv.2.quantity < 10)),
    total_value :=
      (s.inventory.map (fun kv => (kv.2.quantity : Rat) * kv.2.price)).sum }

/-- Python slice `l[a:]` for an integer start index `a`: a negative `a`
counts from the end, clamped at the front of the list. -/
def pySliceFrom {α : Type} (l : List α) (a : Int) : List α :=
  if 0 ≤ a then l.drop a.toNat
  else l.drop (max ((l.length : Int) + a) 0).toNat

/-- `InventoryDB.get_recent_activities`: the Python expression
`self.activity_log[-limit:][::-1]`. -/
def get_recent_activities (log : List Activity) (limit : Int) :
    List Activity :=
  (pySliceFrom log (-limit)).reverse

/-- Outcome of reading and parsing one persisted file at startup:
the file may be missing, its read or parse may raise, or it yields a
JSON value. -/
inductive FileRead where
  | missing : FileRead
  | failed : FileRead
  | ok : JValue → FileRead
deriving Repr

/-- `InventoryDB.load_data`: read `inventory.json` then
`activity_log.json` inside one try block.  A missing inventory file
leaves the inventory empty, a missing log file keeps the constructor
default empty log, and any raised error resets both collections to
empty.  Returns the raw parsed JSON values held in memory. -/
def load_data (invFile logFile : FileRead) : JValue × JValue :=
  match invFile with
  | FileRead.failed => (JValue.obj [], JValue.arr [])
  | FileRead.missing =>
      match logFile with
      | FileRead.failed => (JValue.obj [], JValue.arr [])
      | FileRead.missing => (JValue.obj [], JValue.arr [])
      | FileRead.ok jl => (JValue.obj [], jl)
  | FileRead.ok ji =>
      match logFile with
      | FileRead.failed => (JValue.obj [], JValue.arr [])
      | FileRead.missing => (ji, JValue.arr [])
      | FileRead.ok jl => (ji, jl)

/-- Configuration of the two notification channels and the CSV export,
derived from the environment in `main.py`: whether the Twilio client and
SMTP credentials are configured, whether the network sends succeed, and
whether writing the CSV report file succeeds. -/
structure Channels where
  twilioConfigured : Bool
  twilioSendOk : Bool
  emailConfigured : Bool
  emailSendOk : Bool
  csvOk : Bool
deriving Repr, DecidableEq

/-- A channel invocation performed by the system: a call of
`WhatsAppAgent.send_message` or of `EmailAgent.send_email`. -/
inductive Dispatch where
  | whatsapp : String → Dispatch
  | email : String → String → Dispatch
deriving Repr, DecidableEq

/-- `WhatsAppAgent.send_real_whatsapp`: with no Twilio client the call
returns false without side effects; otherwise the send is attempted and
either a `whatsapp_notification` or a `whatsapp_error` entry is logged
and persisted. -/
def send_real_whatsapp (ch : Channels) (s : InvState) (message now : String) :
    Bool × InvState :=
  if ch.twilioConfigured = false then
    (false, s)
  else if ch.twilioSendOk then
    (true, save_data { s with activity_log := s.activity_log ++
        [Activity.mk now "WhatsApp Agent" "whatsapp_notification"
          s!"Sent WhatsApp: {message}"] })
  else
    (false, save_data { s with activity_log := s.activity_log ++
        [Activity.mk now "WhatsApp Agent" "whatsapp_error"
          "Failed to send WhatsApp"] })

/-- `WhatsAppAgent.send_message`: print the message (the console is the
messaging channel in the demo), additionally attempt a real WhatsApp
send when Twilio is configured, then always log a `notification` entry
and persist. -/
def send_message (ch : Channels) (s : InvState) (message now : String) :
    InvState × List Dispatch :=
  let s1 := if ch.twilioConfigured then (send_real_whatsapp ch s message now).2
            else s
  (save_data { s1 with activity_log := s1.activity_log ++
      [Activity.mk now "WhatsApp Agent" "notification" message] },
   [Dispatch.whatsapp message])

/-- `EmailAgent.send_email`: with incomplete SMTP configuration the call
returns false without logging; otherwise the send is attempted and
either a `send_email` or an `email_error` entry is logged and
persisted. -/
def send_email (ch : Channels) (s : InvState) (subject body now : String) :
    (Bool × InvState) × List Dispatch :=
  if ch.emailConfigured = false then
    ((false, s), [Dispatch.email subject body])
  else if ch.emailSendOk then
    ((true, save_data { s with activity_log := s.activity_log ++
        [Activity.mk now "Email Agent" "send_email"
          s!"Sent email with subject: {subject}"] }),
     [Dispatch.email subject body])
  else
    ((false, save_data { s with activity_log := s.activity_log ++
        [Activity.mk now "Email Agent" "email_error"
          s!"Failed to send email with subject: {subject}"] }),
     [Dispatch.email subject body])

/-- The email body built by `EmailAgent.send_activity_notification`. -/
def activity_email_body (message now : String) : String :=
  s!"📢 New inventory activity: {message} at {now}"

/-- `EmailAgent.send_activity_notification`: wrap the message in the
fixed alert subject and body and send it by email. -/
def send_activity_notification (ch : Channels) (s : InvState)
    (message now : String) : (Bool × InvState) × List Dispatch :=
  send_email ch s "🚨 Inventory Activity Notification"
    (activity_email_body message now) now

/-- `EmailAgent.send_daily_report`: snapshot the status, generate the
transient CSV export (which may fail), and when it succeeded send the
report email with the status figures and the last five activities. -/
def send_daily_report (ch : Channels) (s : InvState) (now : String) :
    (Bool × InvState) × List Dispatch :=
  let status := get_inventory_status s
  if ch.csvOk = false then
    ((false, s), [])
  else
    let total := status.total_products
    let oos := status.out_of_stock
    let low := status.low_stock
    let value := status.total_value
    let body := s!"Inventory Status Report: Total Products: {total}, Out of Stock Items: {oos}, Low Stock Items: {low}, Total Inventory Value: {value}"
    send_email ch s s!"Inventory Daily Report - {now}" body now

/-- The alert block repeated twice inside
`InventoryManager.monitor_inventory`: send the message through the
WhatsApp agent and the email agent, append one alert activity with the
given action and details, and persist. -/
def dispatch_alert (ch : Channels) (s : InvState)
    (message action details now : String) : InvState × List Dispatch :=
  let r1 := send_message ch s message now
  let r2 := send_activity_notification ch r1.1 message now
  let s3 := save_data { r2.1.2 with activity_log := r2.1.2.activity_log ++
      [Activity.mk now "Inventory Manager" action details] }
  (s3, r1.2 ++ r2.2)

/-- The out-of-stock alert text sent by the monitor. -/
def oos_alert_message (n : Nat) : String :=
  s!"🚨 Alert: {n} product(s) out of stock!"

/-- The details text of an out_of_stock_alert log entry. -/
def oos_alert_details (n : Nat) : String :=
  s!"{n} product(s) out of stock"

/-- The low-stock alert text sent by the monitor. -/
def low_alert_message (n : Nat) : String :=
  s!"⚠️ Alert: {n} product(s) low on stock!"

/-- The details text of a low_stock_alert log entry. -/
def low_alert_details (n : Nat) : String :=
  s!"{n} product(s) low on stock"

/-- The alert half of one `InventoryManager.monitor_inventory` tick:
read the status once, alert through both channels and log an
`out_of_stock_alert` entry when the out-of-stock count is positive,
then alert through both channels and log a `low_stock_alert` entry when
the low-stock count is positive; the two checks are independent. -/
def monitor_alerts (ch : Channels) (s : InvState) (now : String) :
    InvState × List Dispatch :=
  let status := get_inventory_status s
  let oos := status.out_of_stock
  let low := status.low_stock
  let step1 :=
    if 0 < oos then
      dispatch_alert ch s (oos_alert_message oos)
        "out_of_stock_alert" (oos_alert_details oos) now
    else (s, [])
  if 0 < low then
    let r := dispatch_alert ch step1.1 (low_alert_message low)
      "low_stock_alert" (low_alert_details low) now
    (r.1, step1.2 ++ r.2)
  else step1

/-- One iteration of the body of `InventoryManager.monitor_inventory`:
the two alert checks of `monitor_alerts`, then at 9:00 the daily report
with a confirmation message.  Returns the new database state and the
channel invocations of the tick. -/
def monitor_tick (ch : Channels) (s : InvState) (hour minute : Nat)
    (now : String) : InvState × List Dispatch :=
  let step2 := monitor_alerts ch s now
  if hour = 9 ∧ minute = 0 then
    let r1 := send_daily_report ch step2.1 now
    let r2 := send_message ch r1.1.2
        "📅 Daily inventory report has been sent to your email!" now
    (r2.1, step2.2 ++ r1.2 ++ r2.2)
  else step2

/-- All prices stored in an inventory are non-negative. -/
def pricesNonneg (inv : List (String × Product)) : Prop :=
  ∀ e ∈ inv, 0 ≤ e.2.price

/-- Number of activity-log entries carrying a given action. -/
def countAction (log : List Activity) (a : String) : Nat :=
  log.countP (fun e => decide (e.action = a))

/-- A sample two-product store: one record out of stock, one low. -/
def demoStore : InvState :=
  InvState.mk
    [("P004", Product.mk "USB-C Cable" 0 9.99 "Accessories" "t0"),
     ("P003", Product.mk "Monitor Stand" 5 29.99 "Accessories" "t0")]
    [] JValue.null JValue.null

/-- A channel configuration with nothing configured, as when no
credentials are present in the environment. -/
def demoChannels : Channels :=
  Channels.mk false false false false false

/-- Looking a key up after an in-place update at that key returns the
new value. -/
lemma alookup_aset_self (l : List (String × Product)) (k : String)
    (p v : Product) (h : alookup l k = some p) :
    alookup (aset l k v) k = some v := by
  induction l with
  | nil => simp [alookup] at h
  | cons kv t ih =>
    obtain ⟨k2, v2⟩ := kv
    by_cases hk : k2 = k
    · subst hk
      simp [alookup, aset]
    · simp only [alookup, if_neg hk] at h
      simp only [aset, if_neg hk, alookup]
      exact ih h

/-- A successful lookup exhibits a member of the association list. -/
lemma alookup_mem (l : List (String × Product)) (k : String) (p : Product)
    (h : alookup l k = some p) : (k, p) ∈ l := by
  induction l with
  | nil => simp [alookup] at h
  | cons kv t ih =>
    obtain ⟨k2, v2⟩ := kv
    by_cases hk : k2 = k
    · subst hk
      simp [alookup] at h
      subst h
      exact List.mem_cons_self _ _
    · simp only [alookup, if_neg hk] at h
      exact List.mem_cons_of_mem _ (ih h)

/-- Claim C1: for every store state and every product id present in the
store, sell_product with a non-negative quantity succeeds exactly when
the stored quantity is at least the requested quantity, and after a
successful call the stored quantity is the prior quantity minus the
quantity sold. -/
theorem C1_sell_product_no_oversell (s : InvState) (product_id now : String)
    (q : Int) (p : Product) (hp : alookup s.inventory product_id = some p)
    (hq : 0 ≤ q) :
    ((sell_product s product_id q now).1 = true ↔ q ≤ p.quantity) ∧
    (q ≤ p.quantity →
      alookup (sell_product s product_id q now).2.inventory product_id =
        some { p with quantity := p.quantity - q, last_updated := now }) := by
  refine ⟨?_, ?_⟩
  · by_cases h : p.quantity < q
    · have h1 : (sell_product s product_id q now).1 = false := by
        simp [sell_product, hp, h]
      rw [h1]
      constructor
      · intro hh
        exact absurd hh (by simp)
      · intro hh
        omega
    · have h1 : (sell_product s product_id q now).1 = true := by
        simp [sell_product, hp, h]
      rw [h1]
      constructor
      · intro _
        omega
      · intro _
        rfl
  · intro hle
    have h : ¬ p.quantity < q := by omega
    simp only [sell_product, hp, if_neg h, save_data]
    exact alookup_aset_self _ _ _ _ hp

/-- Concrete run of claim C1: the spec scenario selling 5 of 50. -/
theorem C1_sell_product_no_oversell_witness :
    (alookup [("P001", Product.mk "Wireless Mouse" 50 19.99 "Electronics" "t0")]
        "P001" = some (Product.mk "Wireless Mouse" 50 19.99 "Electronics" "t0")) ∧
    ((0 : Int) ≤ 5) ∧
    (((sell_product
        (InvState.mk [("P001", Product.mk "Wireless Mouse" 50 19.99 "Electronics" "t0")]
          [] JValue.null JValue.null) "P001" 5 "t1").1 = true ↔ (5 : Int) ≤ 50) ∧
     ((5 : Int) ≤ 50 →
       alookup (sell_product
          (InvState.mk [("P001", Product.mk "Wireless Mouse" 50 19.99 "Electronics" "t0")]
            [] JValue.null JValue.null) "P001" 5 "t1").2.inventory "P001" =
         some (Product.mk "Wireless Mouse" 45 19.99 "Electronics" "t1"))) :=
  ⟨rfl, by decide,
   C1_sell_product_no_oversell
     (InvState.mk [("P001", Product.mk "Wireless Mouse" 50 19.99 "Electronics" "t0")]
       [] JValue.null JValue.null)
     "P001" "t1" 5 (Product.mk "Wireless Mouse" 50 19.99 "Electronics" "t0")
     rfl (by decide)⟩

/-- Claim C6: update_quantity always succeeds on an existing id and adds
the delta to the stored quantity, for deltas of any sign and magnitude,
including results below zero. -/
theorem C6_update_quantity_unchecked (s : InvState) (product_id now : String)
    (change : Int) (p : Product)
    (hp : alookup s.inventory product_id = some p) :
    (update_quantity s product_id change now).1 = true ∧
    alookup (update_quantity s product_id change now).2.inventory product_id =
      some { p with quantity := p.quantity + change, last_updated := now } := by
  refine ⟨?_, ?_⟩
  · simp [update_quantity, hp]
  · simp only [update_quantity, hp, save_data]
    exact alookup_aset_self _ _ _ _ hp

/-- Concrete run of claim C6: a delta of -1000 drives the quantity of a
stock of 3 down to -997. -/
theorem C6_update_quantity_unchecked_witness :
    (alookup [("P003", Product.mk "Monitor Stand" 3 29.99 "Accessories" "t0")]
        "P003" = some (Product.mk "Monitor Stand" 3 29.99 "Accessories" "t0")) ∧
    ((update_quantity
        (InvState.mk [("P003", Product.mk "Monitor Stand" 3 29.99 "Accessories" "t0")]
          [] JValue.null JValue.null) "P003" (-1000) "t1").1 = true ∧
     alookup (update_quantity
        (InvState.mk [("P003", Product.mk "Monitor Stand" 3 29.99 "Accessories" "t0")]
          [] JValue.null JValue.null) "P003" (-1000) "t1").2.inventory "P003" =
       some (Product.mk "Monitor Stand" (-997) 29.99 "Accessories" "t1")) :=
  ⟨rfl,
   C6_update_quantity_unchecked
     (InvState.mk [("P003", Product.mk "Monitor Stand" 3 29.99 "Accessories" "t0")]
       [] JValue.null JValue.null)
     "P003" "t1" (-1000) (Product.mk "Monitor Stand" 3 29.99 "Accessories" "t0") rfl⟩

/-- Claim C4: every validation failure (duplicate id on add, unknown id
on update, sell or delete, oversell on sell) returns false and returns
the state exactly unchanged, including the activity log and the content
of the persisted files. -/
theorem C4_validation_failures_no_side_effects (s : InvState)
    (product_id name category now : String) (quantity change qs : Int)
    (price : Rat) :
    ((alookup s.inventory product_id).isSome →
      add_product s product_id name quantity price category now = (false, s)) ∧
    (alookup s.inventory product_id = none →
      update_quantity s product_id change now = (false, s)) ∧
    (alookup s.inventory product_id = none →
      sell_product s product_id qs now = (false, s)) ∧
    (alookup s.inventory product_id = none →
      delete_product s product_id now = (false, s)) ∧
    (∀ p, alookup s.inventory product_id = some p → p.quantity < qs →
      sell_product s product_id qs now = (false, s)) := by
  refine ⟨?_, ?_, ?_, ?_, ?_⟩
  · intro h
    simp [add_product, h]
  · intro h
    simp [update_quantity, h]
  · intro h
    simp [sell_product, h]
  · intro h
    simp [delete_product, h]
  · intro p hp hlt
    simp [sell_product, hp, hlt]

/-- Concrete runs of claim C4: a duplicate add, the unknown id "PXXX" on
update and delete, and an oversell of 1000 against a stock of 45, all
returning false with the state untouched. -/
theorem C4_validation_failures_no_side_effects_witness :
    (add_product
        (InvState.mk [("P001", Product.mk "Wireless Mouse" 45 19.99 "Electronics" "t0")]
          [] JValue.null JValue.null) "P001" "Other" 1 5 "" "t1" =
      (false, InvState.mk [("P001", Product.mk "Wireless Mouse" 45 19.99 "Electronics" "t0")]
          [] JValue.null JValue.null)) ∧
    (update_quantity
        (InvState.mk [("P001", Product.mk "Wireless Mouse" 45 19.99 "Electronics" "t0")]
          [] JValue.null JValue.null) "PXXX" 5 "t1" =
      (false, InvState.mk [("P001", Product.mk "Wireless Mouse" 45 19.99 "Electronics" "t0")]
          [] JValue.null JValue.null)) ∧
    (delete_product
        (InvState.mk [("P001", Product.mk "Wireless Mouse" 45 19.99 "Electronics" "t0")]
          [] JValue.null JValue.null) "PXXX" "t1" =
      (false, InvState.mk [("P001", Product.mk "Wireless Mouse" 45 19.99 "Electronics" "t0")]
          [] JValue.null JValue.null)) ∧
    (sell_product
        (InvState.mk [("P001", Product.mk "Wireless Mouse" 45 19.99 "Electronics" "t0")]
          [] JValue.null JValue.null) "P001" 1000 "t1" =
      (false, InvState.mk [("P001", Product.mk "Wireless Mouse" 45 19.99 "Electronics" "t0")]
          [] JValue.null JValue.null)) :=
  ⟨(C4_validation_failures_no_side_effects
      (InvState.mk [("P001", Product.mk "Wireless Mouse" 45 19.99 "Electronics" "t0")]
        [] JValue.null JValue.null) "P001" "Other" "" "t1" 1 0 0 5).1 rfl,
   (C4_validation_failures_no_side_effects
      (InvState.mk [("P001", Product.mk "Wireless Mouse" 45 19.99 "Electronics" "t0")]
        [] JValue.null JValue.null) "PXXX" "" "" "t1" 0 5 0 0).2.1 rfl,
   (C4_validation_failures_no_side_effects
      (InvState.mk [("P001", Product.mk "Wireless Mouse" 45 19.99 "Electronics" "t0")]
        [] JValue.null JValue.null) "PXXX" "" "" "t1" 0 0 0 0).2.2.2.1 rfl,
   (C4_validation_failures_no_side_effects
      (InvState.mk [("P001", Product.mk "Wireless Mouse" 45 19.99 "Electronics" "t0")]
        [] JValue.null JValue.null) "P001" "" "" "t1" 0 0 1000 0).2.2.2.2
     (Product.mk "Wireless Mouse" 45 19.99 "Electronics" "t0") rfl (by decide)⟩

/-- Claim C2: get_inventory_status is a pure read (its type consumes the
state and returns only a Status record); out_of_stock counts exactly the
records with quantity at most 0, low_stock counts exactly the records
with quantity strictly between 0 and 10, total_value is the sum of
quantity times price over all records, and the thresholds are
boundary-exact: a singleton store at quantity 10 yields no low-stock
count, a singleton store at quantity 0 yields an out-of-stock count of
one. -/
theorem C2_status_counts (s : InvState) :
    (get_inventory_status s).total_products = s.inventory.length ∧
    (get_inventory_status s).out_of_stock =
      (s.inventory.map Prod.snd).countP (fun p => decide (p.quantity ≤ 0)) ∧
    (get_inventory_status s).low_stock =
      (s.inventory.map Prod.snd).countP
        (fun p => decide (0 < p.quantity ∧ p.quantity < 10)) ∧
    (get_inventory_status s).total_value =
      ((s.inventory.map Prod.snd).map
        (fun p => (p.quantity : Rat) * p.price)).sum ∧
    (∀ pid p fi fl, p.quantity = 10 →
      (get_inventory_status (InvState.mk [(pid, p)] [] fi fl)).low_stock = 0) ∧
    (∀ pid p fi fl, p.quantity = 0 →
      (get_inventory_status (InvState.mk [(pid, p)] [] fi fl)).out_of_stock = 1) := by
  refine ⟨rfl, ?_, ?_, ?_, ?_, ?_⟩
  · simp [get_inventory_status, List.countP_map]
    rfl
  · simp [get_inventory_status, List.countP_map]
    rfl
  · simp [get_inventory_status, List.map_map]
    rfl
  · intro pid p fi fl h
    simp [get_inventory_status, List.countP_cons, h]
  · intro pid p fi fl h
    simp [get_inventory_status, List.countP_cons, h]

/-- Concrete runs of claim C2: a store holding quantities 0, 3 and 10
has one out-of-stock record and one low-stock record, with the boundary
cases evaluated. -/
theorem C2_status_counts_witness :
    ((get_inventory_status (InvState.mk
        [("P004", Product.mk "USB-C Cable" 0 9.99 "Accessories" "t0"),
         ("P003", Product.mk "Monitor Stand" 3 29.99 "Accessories" "t0"),
         ("P005", Product.mk "Desk Lamp" 10 4 "Accessories" "t0")]
        [] JValue.null JValue.null)).out_of_stock =
      ([Product.mk "USB-C Cable" 0 9.99 "Accessories" "t0",
        Product.mk "Monitor Stand" 3 29.99 "Accessories" "t0",
        Product.mk "Desk Lamp" 10 4 "Accessories" "t0"]).countP
        (fun p => decide (p.quantity ≤ 0))) ∧
    ((get_inventory_status (InvState.mk
        [("P005", Product.mk "Desk Lamp" 10 4 "Accessories" "t0")]
        [] JValue.null JValue.null)).low_stock = 0) ∧
    ((get_inventory_status (InvState.mk
        [("P004", Product.mk "USB-C Cable" 0 9.99 "Accessories" "t0")]
        [] JValue.null JValue.null)).out_of_stock = 1) :=
  ⟨(C2_status_counts (InvState.mk
        [("P004", Product.mk "USB-C Cable" 0 9.99 "Accessories" "t0"),
         ("P003", Product.mk "Monitor Stand" 3 29.99 "Accessories" "t0"),
         ("P005", Product.mk "Desk Lamp" 10 4 "Accessories" "t0")]
        [] JValue.null JValue.null)).2.1,
   (C2_status_counts (InvState.mk
        [("P005", Product.mk "Desk Lamp" 10 4 "Accessories" "t0")]
        [] JValue.null JValue.null)).2.2.2.2.1
     "P005" (Product.mk "Desk Lamp" 10 4 "Accessories" "t0")
     JValue.null JValue.null rfl,
   (C2_status_counts (InvState.mk
        [("P004", Product.mk "USB-C Cable" 0 9.99 "Accessories" "t0")]
        [] JValue.null JValue.null)).2.2.2.2.2
     "P004" (Product.mk "USB-C Cable" 0 9.99 "Accessories" "t0")
     JValue.null JValue.null rfl⟩

/-- An in-place update with a non-negative price preserves
non-negativity of all stored prices. -/
lemma pricesNonneg_aset (l : List (String × Product)) (k : String)
    (v : Product) (hl : pricesNonneg l) (hv : 0 ≤ v.price) :
    pricesNonneg (aset l k v) := by
  induction l with
  | nil =>
    intro e he
    simp [aset] at he
  | cons kv t ih =>
    obtain ⟨k2, v2⟩ := kv
    have ht : pricesNonneg t := fun e he => hl e (List.mem_cons_of_mem _ he)
    by_cases hk : k2 = k
    · intro e he
      simp only [aset, if_pos hk] at he
      rcases List.mem_cons.mp he with h | h
      · subst h
        exact hv
      · exact ht e h
    · intro e he
      simp only [aset, if_neg hk] at he
      rcases List.mem_cons.mp he with h | h
      · subst h
        exact hl _ (List.mem_cons_self _ _)
      · exact ih ht e h

/-- Appending a fresh key at the end and then looking it up returns the
appended value. -/
lemma alookup_append_fresh (l : List (String × Product)) (k : String)
    (v : Product) (h : alookup l k = none) :
    alookup (l ++ [(k, v)]) k = some v := by
  induction l with
  | nil => simp [alookup]
  | cons kv t ih =>
    obtain ⟨k2, v2⟩ := kv
    by_cases hk : k2 = k
    · simp only [alookup, if_pos hk] at h
      cases h
    · simp only [alookup, if_neg hk] at h
      simp only [List.cons_append, alookup, if_neg hk]
      exact ih h

/-- Counterexample to claim C9: add_product accepts a negative unit
price; on an empty store it succeeds and stores the record with price
-1, so the non-negative-price invariant fails. -/
theorem C9_counterexample :
    (add_product (InvState.mk [] [] JValue.null JValue.null)
        "P001" "Gadget" 1 (-1) "" "t0").1 = true ∧
    alookup (add_product (InvState.mk [] [] JValue.null JValue.null)
        "P001" "Gadget" 1 (-1) "" "t0").2.inventory "P001" =
      some (Product.mk "Gadget" 1 (-1) "" "t0") ∧
    ((-1 : Rat) < 0) :=
  ⟨rfl, rfl, by norm_num⟩

/-- Claim C9 amended: add_product performs no price validation and
stores the caller-supplied price verbatim, so a negative price can
enter the store; relative to non-negative inputs the invariant does
hold: starting from a store whose prices are all non-negative, add
with a non-negative price, update, sell and delete all preserve it. -/
theorem C9_amended_price_invariant (s : InvState)
    (product_id name category now : String) (quantity change qs : Int)
    (price : Rat) (hs : pricesNonneg s.inventory) :
    (alookup s.inventory product_id = none →
      alookup (add_product s product_id name quantity price category now).2.inventory
        product_id = some (Product.mk name quantity price category now)) ∧
    (0 ≤ price →
      pricesNonneg (add_product s product_id name quantity price category now).2.inventory) ∧
    pricesNonneg (update_quantity s product_id change now).2.inventory ∧
    pricesNonneg (sell_product s product_id qs now).2.inventory ∧
    pricesNonneg (delete_product s product_id now).2.inventory := by
  refine ⟨?_, ?_, ?_, ?_, ?_⟩
  · intro h
    have hnone : (alookup s.inventory product_id).isSome = false := by
      simp [h]
    simp only [add_product, hnone, Bool.false_eq_true, if_false, save_data]
    exact alookup_append_fresh _ _ _ h
  · intro hpr
    by_cases hdup : (alookup s.inventory product_id).isSome
    · simp only [add_product, hdup, if_true]
      exact hs
    · simp only [add_product, hdup, if_false, save_data]
      intro e he
      rcases List.mem_append.mp he with h | h
      · exact hs e h
      · simp at h
        subst h
        exact hpr
  · cases hlook : alookup s.inventory product_id with
    | none =>
      simp only [update_quantity, hlook]
      exact hs
    | some p =>
      simp only [update_quantity, hlook, save_data]
      have hp : 0 ≤ p.price := hs _ (alookup_mem _ _ _ hlook)
      exact pricesNonneg_aset _ _ _ hs hp
  · cases hlook : alookup s.inventory product_id with
    | none =>
      simp only [sell_product, hlook]
      exact hs
    | some p =>
      by_cases hq : p.quantity < qs
      · simp only [sell_product, hlook, if_pos hq]
        exact hs
      · simp only [sell_product, hlook, if_neg hq, save_data]
        have hp : 0 ≤ p.price := hs _ (alookup_mem _ _ _ hlook)
        exact pricesNonneg_aset _ _ _ hs hp
  · cases hlook : alookup s.inventory product_id with
    | none =>
      simp only [delete_product, hlook]
      exact hs
    | some p =>
      simp only [delete_product, hlook, save_data]
      intro e he
      exact hs e (List.mem_of_mem_filter he)

/-- Concrete run of the amended claim C9: adding a product with a
non-negative price to a store with non-negative prices keeps every
stored price non-negative. -/
theorem C9_amended_price_invariant_witness :
    pricesNonneg
      [("P001", Product.mk "Wireless Mouse" 50 19.99 "Electronics" "t0")] ∧
    pricesNonneg (add_product
      (InvState.mk [("P001", Product.mk "Wireless Mouse" 50 19.99 "Electronics" "t0")]
        [] JValue.null JValue.null)
      "P002" "Keyboard" 15 89.99 "Electronics" "t1").2.inventory :=
  have hs : pricesNonneg
      [("P001", Product.mk "Wireless Mouse" 50 19.99 "Electronics" "t0")] := by
    intro e he
    simp at he
    subst he
    norm_num
  ⟨hs,
   (C9_amended_price_invariant
     (InvState.mk [("P001", Product.mk "Wireless Mouse" 50 19.99 "Electronics" "t0")]
       [] JValue.null JValue.null)
     "P002" "Keyboard" "Electronics" "t1" 15 0 0 89.99 hs).2.1 (by norm_num)⟩

/-- Counterexample to claim C10: for an existing product whose stored
quantity (-10) lies below the negative requested quantity (-5), the
guard `quantity < quantity_sold` holds and sell_product returns false,
so a negative sale does not always succeed. -/
theorem C10_counterexample :
    alookup [("P001", Product.mk "Gadget" (-10) 2 "" "t0")] "P001" =
      some (Product.mk "Gadget" (-10) 2 "" "t0") ∧
    ((-5 : Int) < 0) ∧
    (sell_product
      (InvState.mk [("P001", Product.mk "Gadget" (-10) 2 "" "t0")]
        [] JValue.null JValue.null) "P001" (-5) "t1").1 = false :=
  ⟨rfl, by decide, rfl⟩

/-- Claim C10 amended: for an existing product id and a negative
quantity q, sell_product succeeds whenever the stored quantity is at
least q — in particular always when the stored quantity is
non-negative — and then the guard cannot fire, the call returns
success and the stored quantity strictly increases by |q|; only a
stored quantity already below the negative q makes the call fail. -/
theorem C10_amended_negative_sale_adds_stock (s : InvState)
    (product_id now : String) (q : Int) (p : Product)
    (hp : alookup s.inventory product_id = some p) (hneg : q < 0)
    (hge : q ≤ p.quantity) :
    (sell_product s product_id q now).1 = true ∧
    alookup (sell_product s product_id q now).2.inventory product_id =
      some { p with quantity := p.quantity - q, last_updated := now } ∧
    p.quantity < p.quantity - q ∧
    p.quantity - q = p.quantity + (-q) := by
  have hlt : ¬ p.quantity < q := by omega
  refine ⟨?_, ?_, by omega, by omega⟩
  · simp [sell_product, hp, hlt]
  · simp only [sell_product, hp, if_neg hlt, save_data]
    exact alookup_aset_self _ _ _ _ hp

/-- Concrete run of the amended claim C10: selling -5 of a stock of 7
succeeds and raises the stock to 12. -/
theorem C10_amended_negative_sale_adds_stock_witness :
    (alookup [("P001", Product.mk "Gadget" 7 2 "" "t0")] "P001" =
      some (Product.mk "Gadget" 7 2 "" "t0")) ∧
    ((-5 : Int) < 0) ∧ ((-5 : Int) ≤ 7) ∧
    ((sell_product
        (InvState.mk [("P001", Product.mk "Gadget" 7 2 "" "t0")]
          [] JValue.null JValue.null) "P001" (-5) "t1").1 = true ∧
     alookup (sell_product
        (InvState.mk [("P001", Product.mk "Gadget" 7 2 "" "t0")]
          [] JValue.null JValue.null) "P001" (-5) "t1").2.inventory "P001" =
       some (Product.mk "Gadget" 12 2 "" "t1") ∧
     (7 : Int) < 12 ∧ (12 : Int) = 7 + 5) :=
  ⟨rfl, by decide, by decide,
   C10_amended_negative_sale_adds_stock
     (InvState.mk [("P001", Product.mk "Gadget" 7 2 "" "t0")]
       [] JValue.null JValue.null)
     "P001" "t1" (-5) (Product.mk "Gadget" 7 2 "" "t0")
     rfl (by decide) (by decide)⟩

/-- Dropping all but the last k elements and reversing is taking the
first k elements of the reversal. -/
lemma drop_reverse_eq_take (l : List Activity) (k : Nat) :
    (l.drop (l.length - k)).reverse = l.reverse.take k := by
  rcases le_or_lt k l.length with h | h
  · rw [List.reverse_drop]
    congr 1
    omega
  · rw [Nat.sub_eq_zero_of_le (by omega), List.drop_zero]
    rw [List.take_of_length_le (by simp; omega)]

/-- Counterexample to claim C3: with a one-entry log and limit 0,
get_recent_activities returns the whole log (the Python slice `[-0:]`
is the entire list), hence more than 0 entries. -/
theorem C3_counterexample :
    get_recent_activities [Activity.mk "t0" "InventoryManager" "add_product" "d"] 0 =
      [Activity.mk "t0" "InventoryManager" "add_product" "d"] ∧
    ¬ ((get_recent_activities
        [Activity.mk "t0" "InventoryManager" "add_product" "d"] 0).length ≤ 0) :=
  ⟨rfl, by decide⟩

/-- Claim C3 amended: for every strictly positive limit n,
get_recent_activities returns the first n entries of the reversed log —
at most n entries, most recent first, the last min(n, length) entries of
the log — and returns the whole reversed log when fewer than n entries
exist; at n = 0 however the code returns the entire log reversed, since
the Python slice `[-0:]` is the whole list. -/
theorem C3_amended_recent_activities (log : List Activity) (n : Int)
    (h : 0 < n) :
    get_recent_activities log n = log.reverse.take n.toNat ∧
    (get_recent_activities log n).length = min n.toNat log.length ∧
    ((log.length : Int) ≤ n → get_recent_activities log n = log.reverse) := by
  have h1 : get_recent_activities log n = log.reverse.take n.toNat := by
    unfold get_recent_activities pySliceFrom
    have hneg : ¬ (0 ≤ -n) := by omega
    rw [if_neg hneg]
    have hmax : (max ((log.length : Int) + -n) 0).toNat = log.length - n.toNat := by
      omega
    rw [hmax]
    exact drop_reverse_eq_take log n.toNat
  refine ⟨h1, ?_, ?_⟩
  · rw [h1]
    simp
  · intro hle
    rw [h1]
    apply List.take_of_length_le
    simp
    omega

/-- Concrete run of the amended claim C3: limit 1 on a two-entry log
returns exactly the most recent entry. -/
theorem C3_amended_recent_activities_witness :
    ((0 : Int) < 1) ∧
    (get_recent_activities
        [Activity.mk "t0" "InventoryManager" "add_product" "d0",
         Activity.mk "t1" "InventoryManager" "sell_product" "d1"] 1 =
      ([Activity.mk "t0" "InventoryManager" "add_product" "d0",
        Activity.mk "t1" "InventoryManager" "sell_product" "d1"]).reverse.take 1 ∧
     (get_recent_activities
        [Activity.mk "t0" "InventoryManager" "add_product" "d0",
         Activity.mk "t1" "InventoryManager" "sell_product" "d1"] 1).length =
       min 1 2 ∧
     (((2 : Nat) : Int) ≤ 1 → get_recent_activities
        [Activity.mk "t0" "InventoryManager" "add_product" "d0",
         Activity.mk "t1" "InventoryManager" "sell_product" "d1"] 1 =
       ([Activity.mk "t0" "InventoryManager" "add_product" "d0",
         Activity.mk "t1" "InventoryManager" "sell_product" "d1"]).reverse)) :=
  ⟨by decide,
   C3_amended_recent_activities
     [Activity.mk "t0" "InventoryManager" "add_product" "d0",
      Activity.mk "t1" "InventoryManager" "sell_product" "d1"] 1 (by decide)⟩

/-- Decoding inverts encoding on one product record. -/
lemma decodeProduct_encodeProduct (p : Product) :
    decodeProduct (encodeProduct p) = some p := rfl

/-- Decoding inverts encoding on the inventory entry list. -/
lemma decodeEntries_encode (inv : List (String × Product)) :
    decodeEntries (inv.map (fun kv => (kv.1, encodeProduct kv.2))) =
      some inv := by
  induction inv with
  | nil => rfl
  | cons kv t ih =>
    obtain ⟨k, v⟩ := kv
    simp only [List.map_cons, decodeEntries, decodeProduct_encodeProduct, ih]

/-- Decoding inverts encoding on one activity entry. -/
lemma decodeActivity_encodeActivity (a : Activity) :
    decodeActivity (encodeActivity a) = some a := rfl

/-- Decoding inverts encoding on the activity-log entry list. -/
lemma decodeLogEntries_encode (log : List Activity) :
    decodeLogEntries (log.map encodeActivity) = some log := by
  induction log with
  | nil => rfl
  | cons a t ih =>
    simp only [List.map_cons, decodeLogEntries, decodeActivity_encodeActivity, ih]

/-- Claim C5: save-then-load round trip.  Loading the two files written
by save_data succeeds and yields exactly the in-memory values, and the
persisted JSON decodes back to the identical inventory (same ids, same
field values, same order) and the identical activity log (same entries,
same order). -/
theorem C5_save_load_roundtrip (s : InvState) :
    load_data (FileRead.ok (save_data s).fileInventory)
        (FileRead.ok (save_data s).fileLog) =
      ((save_data s).fileInventory, (save_data s).fileLog) ∧
    decodeInventory (save_data s).fileInventory = some s.inventory ∧
    decodeLog (save_data s).fileLog = some s.activity_log := by
  refine ⟨rfl, ?_, ?_⟩
  · simp only [save_data, encodeInventory, decodeInventory]
    exact decodeEntries_encode s.inventory
  · simp only [save_data, encodeLog, decodeLog]
    exact decodeLogEntries_encode s.activity_log

/-- Claim C7: when reading or parsing either persisted file raises, the
constructor recovers by resetting both collections to empty: load_data
returns the empty inventory object and the empty log array (which decode
to the empty collections) instead of propagating the error. -/
theorem C7_load_failure_resets (invFile logFile : FileRead)
    (h : invFile = FileRead.failed ∨ logFile = FileRead.failed) :
    load_data invFile logFile = (JValue.obj [], JValue.arr []) ∧
    decodeInventory (JValue.obj []) = some [] ∧
    decodeLog (JValue.arr []) = some [] := by
  refine ⟨?_, rfl, rfl⟩
  rcases h with h | h
  · subst h
    rfl
  · subst h
    cases invFile <;> rfl

/-- Concrete run of claim C7: a failed read of the log file next to an
intact inventory file still resets both collections to empty. -/
theorem C7_load_failure_resets_witness :
    (FileRead.ok (JValue.obj [("P001", JValue.str "x")]) = FileRead.failed ∨
      FileRead.failed = FileRead.failed) ∧
    (load_data (FileRead.ok (JValue.obj [("P001", JValue.str "x")]))
        FileRead.failed = (JValue.obj [], JValue.arr []) ∧
     decodeInventory (JValue.obj []) = some [] ∧
     decodeLog (JValue.arr []) = some []) :=
  ⟨Or.inr rfl,
   C7_load_failure_resets (FileRead.ok (JValue.obj [("P001", JValue.str "x")]))
     FileRead.failed (Or.inr rfl)⟩

/-- Counting an action distributes over list concatenation. -/
lemma countAction_append (l1 l2 : List Activity) (a : String) :
    countAction (l1 ++ l2) a = countAction l1 a + countAction l2 a := by
  simp [countAction, List.countP_append]

/-- send_message performs exactly one messaging-channel invocation. -/
lemma send_message_dispatches (ch : Channels) (s : InvState)
    (m now : String) : (send_message ch s m now).2 = [Dispatch.whatsapp m] :=
  rfl

/-- send_email performs exactly one email-channel invocation, whether or
not the channel is configured or the send succeeds. -/
lemma send_email_dispatches (ch : Channels) (s : InvState)
    (subject body now : String) :
    (send_email ch s subject body now).2 = [Dispatch.email subject body] := by
  cases hc : ch.emailConfigured <;> cases ho : ch.emailSendOk <;>
    simp [send_email, hc, ho]

/-- The alert block invokes both channels, in order. -/
lemma dispatch_alert_dispatches (ch : Channels) (s : InvState)
    (m action details now : String) :
    (dispatch_alert ch s m action details now).2 =
      [Dispatch.whatsapp m,
       Dispatch.email "🚨 Inventory Activity Notification"
         (activity_email_body m now)] := by
  simp [dispatch_alert, send_activity_notification, send_message,
    send_email_dispatches]

/-- send_message only appends notification, whatsapp_notification or
whatsapp_error entries, so any other action keeps its count. -/
lemma countAction_send_message (ch : Channels) (s : InvState)
    (m now x : String) (h1 : "notification" ≠ x)
    (h2 : "whatsapp_notification" ≠ x) (h3 : "whatsapp_error" ≠ x) :
    countAction (send_message ch s m now).1.activity_log x =
      countAction s.activity_log x := by
  cases hc : ch.twilioConfigured <;> cases ho : ch.twilioSendOk <;>
    simp [send_message, send_real_whatsapp, save_data, countAction,
      List.countP_append, List.countP_cons, hc, ho,
      decide_eq_false h1, decide_eq_false h2, decide_eq_false h3]

/-- send_email only appends send_email or email_error entries, so any
other action keeps its count. -/
lemma countAction_send_email (ch : Channels) (s : InvState)
    (subject body now x : String) (h1 : "send_email" ≠ x)
    (h2 : "email_error" ≠ x) :
    countAction (send_email ch s subject body now).1.2.activity_log x =
      countAction s.activity_log x := by
  cases hc : ch.emailConfigured <;> cases ho : ch.emailSendOk <;>
    simp [send_email, save_data, countAction, List.countP_append,
      List.countP_cons, hc, ho, decide_eq_false h1, decide_eq_false h2]

/-- The alert block adds exactly one entry with its alert action and no
entry with any other non-channel action. -/
lemma countAction_dispatch_alert (ch : Channels) (s : InvState)
    (m action details now x : String)
    (h1 : "notification" ≠ x) (h2 : "whatsapp_notification" ≠ x)
    (h3 : "whatsapp_error" ≠ x) (h4 : "send_email" ≠ x)
    (h5 : "email_error" ≠ x) :
    countAction (dispatch_alert ch s m action details now).1.activity_log x =
      countAction s.activity_log x + (if action = x then 1 else 0) := by
  simp only [dispatch_alert, send_activity_notification, save_data]
  rw [countAction_append]
  rw [countAction_send_email _ _ _ _ _ _ h4 h5]
  rw [countAction_send_message _ _ _ _ _ h1 h2 h3]
  simp [countAction, List.countP_cons]

/-- send_message never removes log entries. -/
lemma mem_send_message_log (ch : Channels) (s : InvState) (m now : String)
    (e : Activity) (he : e ∈ s.activity_log) :
    e ∈ (send_message ch s m now).1.activity_log := by
  cases hc : ch.twilioConfigured <;> cases ho : ch.twilioSendOk <;>
    simp [send_message, send_real_whatsapp, save_data, hc, ho, he]

/-- send_email never removes log entries. -/
lemma mem_send_email_log (ch : Channels) (s : InvState)
    (subject body now : String) (e : Activity) (he : e ∈ s.activity_log) :
    e ∈ (send_email ch s subject body now).1.2.activity_log := by
  cases hc : ch.emailConfigured <;> cases ho : ch.emailSendOk <;>
    simp [send_email, save_data, hc, ho, he]

/-- The alert block never removes log entries. -/
lemma mem_dispatch_alert_log (ch : Channels) (s : InvState)
    (m action details now : String) (e : Activity)
    (he : e ∈ s.activity_log) :
    e ∈ (dispatch_alert ch s m action details now).1.activity_log := by
  simp only [dispatch_alert, send_activity_notification, save_data,
    List.mem_append]
  left
  exact mem_send_email_log _ _ _ _ _ _ (mem_send_message_log _ _ _ _ _ he)

/-- The alert block appends its alert entry to the log. -/
lemma dispatch_alert_mem_entry (ch : Channels) (s : InvState)
    (m action details now : String) :
    Activity.mk now "Inventory Manager" action details ∈
      (dispatch_alert ch s m action details now).1.activity_log := by
  simp [dispatch_alert, send_activity_notification, save_data]

/-- send_daily_report only appends send_email or email_error entries. -/
lemma countAction_send_daily_report (ch : Channels) (s : InvState)
    (now x : String) (h1 : "send_email" ≠ x) (h2 : "email_error" ≠ x) :
    countAction (send_daily_report ch s now).1.2.activity_log x =
      countAction s.activity_log x := by
  cases hcsv : ch.csvOk
  · simp [send_daily_report, hcsv]
  · simp only [send_daily_report, hcsv]
    rw [if_neg (by simp)]
    exact countAction_send_email _ _ _ _ _ _ h1 h2

/-- send_daily_report never removes log entries. -/
lemma mem_send_daily_report_log (ch : Channels) (s : InvState)
    (now : String) (e : Activity) (he : e ∈ s.activity_log) :
    e ∈ (send_daily_report ch s now).1.2.activity_log := by
  cases hcsv : ch.csvOk
  · simpa [send_daily_report, hcsv] using he
  · simp only [send_daily_report, hcsv]
    rw [if_neg (by simp)]
    exact mem_send_email_log _ _ _ _ _ _ he

/-- Action counts after the alert half of a tick: the alert entry counts
grow by one exactly when the respective check fired, and channel-entry
actions are untouched for any other action name. -/
lemma monitor_alerts_countAction (ch : Channels) (s : InvState)
    (now x : String) (h1 : "notification" ≠ x)
    (h2 : "whatsapp_notification" ≠ x) (h3 : "whatsapp_error" ≠ x)
    (h4 : "send_email" ≠ x) (h5 : "email_error" ≠ x) :
    countAction (monitor_alerts ch s now).1.activity_log x =
      countAction s.activity_log x
        + (if 0 < (get_inventory_status s).out_of_stock ∧
              "out_of_stock_alert" = x then 1 else 0)
        + (if 0 < (get_inventory_status s).low_stock ∧
              "low_stock_alert" = x then 1 else 0) := by
  by_cases ho : 0 < (get_inventory_status s).out_of_stock
  · by_cases hl : 0 < (get_inventory_status s).low_stock
    · simp only [monitor_alerts, ho, hl, if_true, true_and, eq_self_iff_true,
        ite_true, if_pos]
      rw [countAction_dispatch_alert _ _ _ _ _ _ _ h1 h2 h3 h4 h5]
      rw [countAction_dispatch_alert _ _ _ _ _ _ _ h1 h2 h3 h4 h5]
    · simp only [monitor_alerts, ho, hl, if_true, true_and, false_and,
        if_false, ite_true, ite_false, Nat.add_zero]
      rw [countAction_dispatch_alert _ _ _ _ _ _ _ h1 h2 h3 h4 h5]
  · by_cases hl : 0 < (get_inventory_status s).low_stock
    · simp only [monitor_alerts, ho, hl, if_true, true_and, false_and,
        if_false, ite_true, ite_false, Nat.add_zero]
      rw [countAction_dispatch_alert _ _ _ _ _ _ _ h1 h2 h3 h4 h5]
    · simp only [monitor_alerts, ho, hl, false_and, if_false, ite_false,
        Nat.add_zero]

/-- When the out-of-stock check fires, the alert half of a tick invokes
both channels with the out-of-stock alert and logs the alert entry. -/
lemma monitor_alerts_oos_mem (ch : Channels) (s : InvState) (now : String)
    (ho : 0 < (get_inventory_status s).out_of_stock) :
    Dispatch.whatsapp (oos_alert_message (get_inventory_status s).out_of_stock) ∈
      (monitor_alerts ch s now).2 ∧
    Dispatch.email "🚨 Inventory Activity Notification"
        (activity_email_body
          (oos_alert_message (get_inventory_status s).out_of_stock) now) ∈
      (monitor_alerts ch s now).2 ∧
    Activity.mk now "Inventory Manager" "out_of_stock_alert"
        (oos_alert_details (get_inventory_status s).out_of_stock) ∈
      (monitor_alerts ch s now).1.activity_log := by
  by_cases hl : 0 < (get_inventory_status s).low_stock
  · refine ⟨?_, ?_, ?_⟩
    · simp [monitor_alerts, ho, hl, dispatch_alert_dispatches]
    · simp [monitor_alerts, ho, hl, dispatch_alert_dispatches]
    · simp only [monitor_alerts, ho, hl, if_true, ite_true]
      exact mem_dispatch_alert_log _ _ _ _ _ _ _
        (dispatch_alert_mem_entry _ _ _ _ _ _)
  · refine ⟨?_, ?_, ?_⟩
    · simp [monitor_alerts, ho, hl, dispatch_alert_dispatches]
    · simp [monitor_alerts, ho, hl, dispatch_alert_dispatches]
    · simp only [monitor_alerts, ho, hl, if_true, if_false, ite_true, ite_false]
      exact dispatch_alert_mem_entry _ _ _ _ _ _

/-- When the low-stock check fires, the alert half of a tick invokes
both channels with the low-stock alert and logs the alert entry. -/
lemma monitor_alerts_low_mem (ch : Channels) (s : InvState) (now : String)
    (hl : 0 < (get_inventory_status s).low_stock) :
    Dispatch.whatsapp (low_alert_message (get_inventory_status s).low_stock) ∈
      (monitor_alerts ch s now).2 ∧
    Dispatch.email "🚨 Inventory Activity Notification"
        (activity_email_body
          (low_alert_message (get_inventory_status s).low_stock) now) ∈
      (monitor_alerts ch s now).2 ∧
    Activity.mk now "Inventory Manager" "low_stock_alert"
        (low_alert_details (get_inventory_status s).low_stock) ∈
      (monitor_alerts ch s now).1.activity_log := by
  by_cases ho : 0 < (get_inventory_status s).out_of_stock
  · refine ⟨?_, ?_, ?_⟩
    · simp [monitor_alerts, ho, hl, dispatch_alert_dispatches]
    · simp [monitor_alerts, ho, hl, dispatch_alert_dispatches]
    · simp only [monitor_alerts, ho, hl, if_true, ite_true]
      exact dispatch_alert_mem_entry _ _ _ _ _ _
  · refine ⟨?_, ?_, ?_⟩
    · simp [monitor_alerts, ho, hl, dispatch_alert_dispatches]
    · simp [monitor_alerts, ho, hl, dispatch_alert_dispatches]
    · simp only [monitor_alerts, ho, hl, if_true, if_false, ite_true, ite_false]
      exact dispatch_alert_mem_entry _ _ _ _ _ _

/-- The 9:00 branch of a tick preserves alert-action counts. -/
lemma monitor_tick_countAction_alerts (ch : Channels) (s : InvState)
    (hour minute : Nat) (now x : String) (h1 : "notification" ≠ x)
    (h2 : "whatsapp_notification" ≠ x) (h3 : "whatsapp_error" ≠ x)
    (h4 : "send_email" ≠ x) (h5 : "email_error" ≠ x) :
    countAction (monitor_tick ch s hour minute now).1.activity_log x =
      countAction (monitor_alerts ch s now).1.activity_log x := by
  by_cases ht : hour = 9 ∧ minute = 0
  · simp only [monitor_tick, if_pos ht]
    rw [countAction_send_message _ _ _ _ _ h1 h2 h3]
    exact countAction_send_daily_report _ _ _ _ h4 h5
  · simp only [monitor_tick, if_neg ht]

/-- The 9:00 branch of a tick never removes log entries. -/
lemma monitor_tick_mem_log (ch : Channels) (s : InvState)
    (hour minute : Nat) (now : String) (e : Activity)
    (he : e ∈ (monitor_alerts ch s now).1.activity_log) :
    e ∈ (monitor_tick ch s hour minute now).1.activity_log := by
  by_cases ht : hour = 9 ∧ minute = 0
  · simp only [monitor_tick, if_pos ht]
    exact mem_send_message_log _ _ _ _ _ (mem_send_daily_report_log _ _ _ _ he)
  · simpa [monitor_tick, if_neg ht] using he

/-- The 9:00 branch of a tick never removes channel invocations. -/
lemma monitor_tick_mem_dispatch (ch : Channels) (s : InvState)
    (hour minute : Nat) (now : String) (d : Dispatch)
    (hd : d ∈ (monitor_alerts ch s now).2) :
    d ∈ (monitor_tick ch s hour minute now).2 := by
  by_cases ht : hour = 9 ∧ minute = 0
  · simp only [monitor_tick, if_pos ht, List.mem_append]
    exact Or.inl (Or.inl hd)
  · simpa [monitor_tick, if_neg ht] using hd

/-- Claim C8: in one execution of the monitor tick body, a positive
out-of-stock count dispatches the out-of-stock alert through both the
messaging and the email channel and appends exactly one
out_of_stock_alert entry whose details carry the count; a positive
low-stock count does the same with a low_stock_alert entry; the two
checks are independent, so both fire in the same tick when both counts
are positive, and a zero count leaves the respective alert count
unchanged. -/
theorem C8_monitor_tick_alerts (ch : Channels) (s : InvState)
    (hour minute : Nat) (now : String) :
    (0 < (get_inventory_status s).out_of_stock →
      Dispatch.whatsapp
          (oos_alert_message (get_inventory_status s).out_of_stock) ∈
        (monitor_tick ch s hour minute now).2 ∧
      Dispatch.email "🚨 Inventory Activity Notification"
          (activity_email_body
            (oos_alert_message (get_inventory_status s).out_of_stock) now) ∈
        (monitor_tick ch s hour minute now).2 ∧
      Activity.mk now "Inventory Manager" "out_of_stock_alert"
          (oos_alert_details (get_inventory_status s).out_of_stock) ∈
        (monitor_tick ch s hour minute now).1.activity_log ∧
      countAction (monitor_tick ch s hour minute now).1.activity_log
          "out_of_stock_alert" =
        countAction s.activity_log "out_of_stock_alert" + 1) ∧
    ((get_inventory_status s).out_of_stock = 0 →
      countAction (monitor_tick ch s hour minute now).1.activity_log
          "out_of_stock_alert" =
        countAction s.activity_log "out_of_stock_alert") ∧
    (0 < (get_inventory_status s).low_stock →
      Dispatch.whatsapp
          (low_alert_message (get_inventory_status s).low_stock) ∈
        (monitor_tick ch s hour minute now).2 ∧
      Dispatch.email "🚨 Inventory Activity Notification"
          (activity_email_body
            (low_alert_message (get_inventory_status s).low_stock) now) ∈
        (monitor_tick ch s hour minute now).2 ∧
      Activity.mk now "Inventory Manager" "low_stock_alert"
          (low_alert_details (get_inventory_status s).low_stock) ∈
        (monitor_tick ch s hour minute now).1.activity_log ∧
      countAction (monitor_tick ch s hour minute now).1.activity_log
          "low_stock_alert" =
        countAction s.activity_log "low_stock_alert" + 1) ∧
    ((get_inventory_status s).low_stock = 0 →
      countAction (monitor_tick ch s hour minute now).1.activity_log
          "low_stock_alert" =
        countAction s.activity_log "low_stock_alert") := by
  have hco := monitor_tick_countAction_alerts ch s hour minute now
    "out_of_stock_alert" (by decide) (by decide) (by decide) (by decide)
    (by decide)
  have hcoA := monitor_alerts_countAction ch s now "out_of_stock_alert"
    (by decide) (by decide) (by decide) (by decide) (by decide)
  have hcl := monitor_tick_countAction_alerts ch s hour minute now
    "low_stock_alert" (by decide) (by decide) (by decide) (by decide)
    (by decide)
  have hclA := monitor_alerts_countAction ch s now "low_stock_alert"
    (by decide) (by decide) (by decide) (by decide) (by decide)
  refine ⟨?_, ?_, ?_, ?_⟩
  · intro ho
    obtain ⟨m1, m2, m3⟩ := monitor_alerts_oos_mem ch s now ho
    refine ⟨monitor_tick_mem_dispatch _ _ _ _ _ _ m1,
            monitor_tick_mem_dispatch _ _ _ _ _ _ m2,
            monitor_tick_mem_log _ _ _ _ _ _ m3, ?_⟩
    rw [hco, hcoA, if_pos ⟨ho, rfl⟩, if_neg (by simp)]
  · intro hz
    rw [hco, hcoA, if_neg (by simp [hz]), if_neg (by simp)]
    omega
  · intro hl
    obtain ⟨m1, m2, m3⟩ := monitor_alerts_low_mem ch s now hl
    refine ⟨monitor_tick_mem_dispatch _ _ _ _ _ _ m1,
            monitor_tick_mem_dispatch _ _ _ _ _ _ m2,
            monitor_tick_mem_log _ _ _ _ _ _ m3, ?_⟩
    rw [hcl, hclA, if_neg (by simp), if_pos ⟨hl, rfl⟩]
  · intro hz
    rw [hcl, hclA, if_neg (by simp), if_neg (by simp [hz])]
    omega

/-- Concrete run of claim C8: a tick over a store with one out-of-stock
and one low-stock record fires both alerts with unconfigured channels at
10:30. -/
theorem C8_monitor_tick_alerts_witness :
    (0 < (get_inventory_status demoStore).out_of_stock) ∧
    (0 < (get_inventory_status demoStore).low_stock) ∧
    (Dispatch.whatsapp
        (oos_alert_message (get_inventory_status demoStore).out_of_stock) ∈
      (monitor_tick demoChannels demoStore 10 30 "t1").2 ∧
     Dispatch.email "🚨 Inventory Activity Notification"
        (activity_email_body
          (oos_alert_message (get_inventory_status demoStore).out_of_stock)
          "t1") ∈
      (monitor_tick demoChannels demoStore 10 30 "t1").2 ∧
     Activity.mk "t1" "Inventory Manager" "out_of_stock_alert"
        (oos_alert_details (get_inventory_status demoStore).out_of_stock) ∈
      (monitor_tick demoChannels demoStore 10 30 "t1").1.activity_log ∧
     countAction (monitor_tick demoChannels demoStore 10 30 "t1").1.activity_log
        "out_of_stock_alert" =
       countAction demoStore.activity_log "out_of_stock_alert" + 1) ∧
    (Dispatch.whatsapp
        (low_alert_message (get_inventory_status demoStore).low_stock) ∈
      (monitor_tick demoChannels demoStore 10 30 "t1").2 ∧
     Dispatch.email "🚨 Inventory Activity Notification"
        (activity_email_body
          (low_alert_message (get_inventory_status demoStore).low_stock)
          "t1") ∈
      (monitor_tick demoChannels demoStore 10 30 "t1").2 ∧
     Activity.mk "t1" "Inventory Manager" "low_stock_alert"
        (low_alert_details (get_inventory_status demoStore).low_stock) ∈
      (monitor_tick demoChannels demoStore 10 30 "t1").1.activity_log ∧
     countAction (monitor_tick demoChannels demoStore 10 30 "t1").1.activity_log
        "low_stock_alert" =
       countAction demoStore.activity_log "low_stock_alert" + 1) :=
  ⟨by decide, by decide,
   (C8_monitor_tick_alerts demoChannels demoStore 10 30 "t1").1 (by decide),
   (C8_monitor_tick_alerts demoChannels demoStore 10 30 "t1").2.2.1 (by decide)⟩
